import Mathlib

/-!
Shallow embedding of the X.224/TPDU connection-negotiation and data-framing
layer found in rdpy/protocol/rdp/tpdu.py.

The generic binary composite-record engine (rdpy.network.type) and the layer
automata base class (rdpy.network.layer) are part of the repository but are
not in the slice under review; their semantics are modelled from the spec
(conditional fields present on the wire exactly when their predicate over the
just-read code holds, optional nested records absent exactly when the buffer
is exhausted at that point, constant fields checked on decode, computed length
patched to total size minus one). Everything in the TPDU layer itself is
translated directly from tpdu.py.

Byte streams are lists of natural numbers, one per byte. Machine integers are
naturals reduced modulo 256 per byte position on encode. Fallible decoding
returns Option. The stateful layer object becomes explicit state passing: a
handler takes the TPDU record and the received bytes and returns the updated
record together with either an error (a raised exception in the source) or
the list of side effects performed on the collaborators (transport sends, the
TLS upgrade, notifications to the presentation layer).
-/

/-- Modelled from the spec: 8-bit read of the binary field engine
(rdpy.network.type, missing from the slice). Consumes one byte. -/
def readUInt8 : List Nat → Option (Nat × List Nat)
  | [] => none
  | b :: rest => some (b, rest)

/-- Modelled from the spec: 16-bit little-endian read (low byte first). -/
def readUInt16Le : List Nat → Option (Nat × List Nat)
  | b0 :: b1 :: rest => some (b0 + 256 * b1, rest)
  | _ => none

/-- Modelled from the spec: 16-bit big-endian read (high byte first). -/
def readUInt16Be : List Nat → Option (Nat × List Nat)
  | b0 :: b1 :: rest => some (256 * b0 + b1, rest)
  | _ => none

/-- Modelled from the spec: 32-bit little-endian read. -/
def readUInt32Le : List Nat → Option (Nat × List Nat)
  | b0 :: b1 :: b2 :: b3 :: rest =>
      some (b0 + 256 * b1 + 65536 * b2 + 16777216 * b3, rest)
  | _ => none

/-- Modelled from the spec: 8-bit write. -/
def writeUInt8 (v : Nat) : List Nat := [v % 256]

/-- Modelled from the spec: 16-bit little-endian write. -/
def writeUInt16Le (v : Nat) : List Nat := [v % 256, v / 256 % 256]

/-- Modelled from the spec: 16-bit big-endian write. -/
def writeUInt16Be (v : Nat) : List Nat := [v / 256 % 256, v % 256]

/-- Modelled from the spec: 32-bit little-endian write. -/
def writeUInt32Le (v : Nat) : List Nat :=
  [v % 256, v / 256 % 256, v / 65536 % 256, v / 16777216 % 256]

namespace MessageType

def X224_TPDU_CONNECTION_REQUEST : Nat := 0xE0

def X224_TPDU_CONNECTION_CONFIRM : Nat := 0xD0

def X224_TPDU_DISCONNECT_REQUEST : Nat := 0x80

def X224_TPDU_DATA : Nat := 0xF0

def X224_TPDU_ERROR : Nat := 0x70

end MessageType

namespace NegociationType

def TYPE_RDP_NEG_REQ : Nat := 0x01

def TYPE_RDP_NEG_RSP : Nat := 0x02

def TYPE_RDP_NEG_FAILURE : Nat := 0x03

end NegociationType

namespace Protocols

def PROTOCOL_RDP : Nat := 0x00000000

def PROTOCOL_SSL : Nat := 0x00000001

def PROTOCOL_HYBRID : Nat := 0x00000002

def PROTOCOL_HYBRID_EX : Nat := 0x00000008

end Protocols

/-- The Negotiation composite record of tpdu.py: code, flag, the constant
length 8, and two conditional 32-bit fields. The two Bool fields mirror the
per-field was-read flags of the engine: after decode they record whether the
conditional field was actually present on the wire. Freshly constructed
records have value 0 in both conditional fields and both flags false. -/
structure Negotiation where
  code : Nat
  flag : Nat
  len : Nat
  selectedProtocol : Nat
  failureCode : Nat
  selectedProtocolRead : Bool
  failureCodeRead : Bool
  deriving Repr, DecidableEq

/-- A freshly constructed Negotiation record, as in the source constructor. -/
def Negotiation.init : Negotiation := ⟨0, 0, 8, 0, 0, false, false⟩

/-- Encoding of a Negotiation record. Modelled from the spec: write code,
flag and the constant length 8, then the conditional fields exactly when the
predicate over the code field holds (selectedProtocol when code equals the
response discriminant, failureCode when code equals the failure
discriminant); fields not matching their predicate are omitted entirely. -/
def Negotiation.write (n : Negotiation) : List Nat :=
  writeUInt8 n.code ++ writeUInt8 n.flag ++ writeUInt16Le n.len ++
    (if n.code = NegociationType.TYPE_RDP_NEG_RSP then
      writeUInt32Le n.selectedProtocol
    else []) ++
    (if n.code = NegociationType.TYPE_RDP_NEG_FAILURE then
      writeUInt32Le n.failureCode
    else [])

/-- Decoding of a Negotiation record. Modelled from the spec: read code, flag
and length (which must equal the constant 8, else decode fails), then attempt
to read exactly the conditional field whose predicate holds for the just-read
code, recording its presence in the corresponding was-read flag. -/
def Negotiation.read (s : List Nat) : Option (Negotiation × List Nat) :=
  match readUInt8 s with
  | none => none
  | some (code, s1) =>
    match readUInt8 s1 with
    | none => none
    | some (flag, s2) =>
      match readUInt16Le s2 with
      | none => none
      | some (len, s3) =>
        if len = 8 then
          if code = NegociationType.TYPE_RDP_NEG_RSP then
            match readUInt32Le s3 with
            | none => none
            | some (sel, s4) =>
                some (⟨code, flag, len, sel, 0, true, false⟩, s4)
          else if code = NegociationType.TYPE_RDP_NEG_FAILURE then
            match readUInt32Le s3 with
            | none => none
            | some (fc, s4) =>
                some (⟨code, flag, len, 0, fc, false, true⟩, s4)
          else
            some (⟨code, flag, len, 0, 0, false, false⟩, s3)
        else none

/-- The TPDUConnectMessage composite record of tpdu.py: computed length byte,
code byte, five padding bytes (two 16-bit big-endian values and one byte) and
an optional trailing Negotiation record. The protocolNegRead flag mirrors the
engine flag recording whether the optional record was actually consumed. -/
structure TPDUConnectMessage where
  len : Nat
  code : Nat
  pad1 : Nat
  pad2 : Nat
  pad3 : Nat
  protocolNeg : Negotiation
  protocolNegRead : Bool
  deriving Repr, DecidableEq

/-- Decoding of a TPDUConnectMessage. Modelled from the spec: read length and
code, read the five padding bytes, then attempt to decode the optional
Negotiation record from whatever bytes remain; when the buffer is exhausted
at that point the record is reported absent, a legal outcome distinct from a
decode error. -/
def TPDUConnectMessage.read (s : List Nat) :
    Option (TPDUConnectMessage × List Nat) :=
  match readUInt8 s with
  | none => none
  | some (len, s1) =>
    match readUInt8 s1 with
    | none => none
    | some (code, s2) =>
      match readUInt16Be s2 with
      | none => none
      | some (p1, s3) =>
        match readUInt16Be s3 with
        | none => none
        | some (p2, s4) =>
          match readUInt8 s4 with
          | none => none
          | some (p3, s5) =>
            match s5 with
            | [] => some (⟨len, code, p1, p2, p3, Negotiation.init, false⟩, [])
            | _ =>
              match Negotiation.read s5 with
              | none => none
              | some (neg, s6) =>
                  some (⟨len, code, p1, p2, p3, neg, true⟩, s6)

/-- Encoding of a TPDUConnectMessage with the given code and embedded
Negotiation record and default zero padding. Modelled from the spec: the
leading length byte is computed as the total serialized size of the record
minus one, i.e. the size of everything after the length byte itself. -/
def TPDUConnectMessage.write (code : Nat) (protocolNeg : Negotiation) :
    List Nat :=
  let body := writeUInt8 code ++ writeUInt16Be 0 ++ writeUInt16Be 0 ++
    writeUInt8 0 ++ Negotiation.write protocolNeg
  writeUInt8 body.length ++ body

/-- Encoding of the TPDUDataHeader record of tpdu.py: the constant byte 2,
the message type byte (X224_TPDU_DATA in a freshly built header) and the
constant separator byte 0x80. -/
def TPDUDataHeader.write : List Nat := [2, MessageType.X224_TPDU_DATA, 0x80]

/-- Decoding of a TPDUDataHeader. Modelled from the spec: the leading byte
must equal the constant 2 and the separator byte must equal the constant
0x80, else decode fails; the message type byte in between is returned as a
plain discriminant to be examined by the caller. -/
def TPDUDataHeader.read (s : List Nat) : Option (Nat × List Nat) :=
  match s with
  | h :: mt :: sep :: rest =>
      if h = 2 ∧ sep = 0x80 then some (mt, rest) else none
  | _ => none

/-- Modelled from the spec: the states of the connection automata of
LayerAutomata (rdpy.network.layer, missing from the slice). Each state names
the armed receive handler: idle before connect, recvConnectionConfirm while
awaiting the confirm, recvData in steady-state data exchange. -/
inductive TpduState
  | idle
  | awaitingConnectionConfirm
  | dataExchange
  deriving Repr, DecidableEq

/-- The TPDU layer state: the client requested protocol, the server selected
protocol (both default to PROTOCOL_SSL in the constructor) and the current
automata state. -/
structure TPDU where
  requestedProtocol : Nat
  selectedProtocol : Nat
  state : TpduState
  deriving Repr, DecidableEq

/-- The TPDU constructor: both protocol fields default to PROTOCOL_SSL, the
only protocol supported in this version. -/
def TPDU.init : TPDU :=
  ⟨Protocols.PROTOCOL_SSL, Protocols.PROTOCOL_SSL, TpduState.idle⟩

/-- Modelled from the spec: the observable side effects a handler performs on
its collaborators. sendBytes is a transport send, startTLS is the one-shot
TLS upgrade of the transport, connectedUpper notifies the presentation layer
that the connection is established, dataUpper delivers a decoded application
payload to the presentation layer. -/
inductive Effect
  | sendBytes (bytes : List Nat)
  | startTLS
  | connectedUpper
  | dataUpper (bytes : List Nat)
  deriving Repr, DecidableEq

/-- The errors raised by the TPDU layer, one constructor per distinct raise
site of tpdu.py (decodeError stands for a failure of the field engine while
reading a record from the stream). -/
inductive TpduError
  | decodeError
  | unexpectedCode (code : Nat)
  | negotiationAbsent
  | negotiationFailure (failureCode : Nat)
  | unsupportedProtocol
  | peerError
  | unknownTpduCode (messageType : Nat)
  deriving Repr, DecidableEq

/-- TPDU.recvConnectionConfirm from tpdu.py: decode a TPDUConnectMessage,
check the code is X224_TPDU_CONNECTION_CONFIRM, check the negotiation record
was present, check no failure code was present, adopt the selected protocol
from the response, check it is PROTOCOL_SSL, then upgrade the transport to
TLS, arm recvData as the next state and notify the presentation layer. The
returned TPDU record carries every field mutation performed before a raise,
exactly as the source object would. -/
def TPDU.recvConnectionConfirm (t : TPDU) (data : List Nat) :
    TPDU × Except TpduError (List Effect) :=
  match TPDUConnectMessage.read data with
  | none => (t, Except.error TpduError.decodeError)
  | some (message, _) =>
    if message.code ≠ MessageType.X224_TPDU_CONNECTION_CONFIRM then
      (t, Except.error (TpduError.unexpectedCode message.code))
    else if message.protocolNegRead = false then
      (t, Except.error TpduError.negotiationAbsent)
    else if message.protocolNeg.failureCodeRead = true then
      (t, Except.error
        (TpduError.negotiationFailure message.protocolNeg.failureCode))
    else
      let t1 : TPDU :=
        ⟨t.requestedProtocol, message.protocolNeg.selectedProtocol, t.state⟩
      if t1.selectedProtocol ≠ Protocols.PROTOCOL_SSL then
        (t1, Except.error TpduError.unsupportedProtocol)
      else
        (⟨t1.requestedProtocol, t1.selectedProtocol, TpduState.dataExchange⟩,
         Except.ok [Effect.startTLS, Effect.connectedUpper])

/-- TPDU.recvData from tpdu.py: decode a TPDUDataHeader, then forward the
remaining bytes to the presentation layer when the message type is
X224_TPDU_DATA, raise a fatal peer-reported error when it is
X224_TPDU_ERROR, and raise an unrecognized-frame error otherwise. -/
def TPDU.recvData (t : TPDU) (data : List Nat) :
    TPDU × Except TpduError (List Effect) :=
  match TPDUDataHeader.read data with
  | none => (t, Except.error TpduError.decodeError)
  | some (messageType, rest) =>
    if messageType = MessageType.X224_TPDU_DATA then
      (t, Except.ok [Effect.dataUpper rest])
    else if messageType = MessageType.X224_TPDU_ERROR then
      (t, Except.error TpduError.peerError)
    else
      (t, Except.error (TpduError.unknownTpduCode messageType))

/-- TPDU.sendConnectionRequest from tpdu.py: build a TPDUConnectMessage with
code X224_TPDU_CONNECTION_REQUEST whose negotiation record has code
TYPE_RDP_NEG_REQ and selectedProtocol set to the requested protocol, send its
encoding on the transport, and arm recvConnectionConfirm as the next state. -/
def TPDU.sendConnectionRequest (t : TPDU) : TPDU × List Effect :=
  let protocolNeg : Negotiation :=
    ⟨NegociationType.TYPE_RDP_NEG_REQ, 0, 8, t.requestedProtocol, 0,
     false, false⟩
  let bytes := TPDUConnectMessage.write
    MessageType.X224_TPDU_CONNECTION_REQUEST protocolNeg
  (⟨t.requestedProtocol, t.selectedProtocol,
    TpduState.awaitingConnectionConfirm⟩,
   [Effect.sendBytes bytes])

/-- TPDU.connect from tpdu.py: a connection request simply delegates to
sendConnectionRequest. -/
def TPDU.connect (t : TPDU) : TPDU × List Effect :=
  t.sendConnectionRequest

/-- TPDU.send from tpdu.py: hand the transport a freshly built
TPDUDataHeader followed by the message, as one unit. -/
def TPDU.send (_t : TPDU) (message : List Nat) : List Effect :=
  [Effect.sendBytes (TPDUDataHeader.write ++ message)]

/-- A concrete Connection Confirm wire image: code 0xD0, zero padding, then a
negotiation response (code 2, length 8) selecting PROTOCOL_SSL. -/
def confirmOkBytes : List Nat :=
  [14, 0xD0, 0, 0, 0, 0, 0, 2, 0, 8, 0, 1, 0, 0, 0]

/-- A concrete Connection Confirm wire image carrying a negotiation failure
(code 3, length 8) with failure code 2 (SSL_NOT_ALLOWED_BY_SERVER). -/
def confirmFailureBytes : List Nat :=
  [14, 0xD0, 0, 0, 0, 0, 0, 3, 0, 8, 0, 2, 0, 0, 0]

/-- A concrete Connection Confirm wire image that ends immediately after the
five padding bytes, so the optional negotiation record is absent. -/
def confirmNoNegBytes : List Nat := [6, 0xD0, 0, 0, 0, 0, 0]

/-- A concrete Connection Confirm wire image whose negotiation response
selects PROTOCOL_HYBRID (2) instead of PROTOCOL_SSL. -/
def confirmHybridBytes : List Nat :=
  [14, 0xD0, 0, 0, 0, 0, 0, 2, 0, 8, 0, 2, 0, 0, 0]

/-- The bytes sendConnectionRequest actually emits: length 10, code 0xE0,
five zero padding bytes, then the negotiation record encoded as code 1,
flag 0 and the little-endian constant length 8 only, since neither
conditional field predicate holds for code TYPE_RDP_NEG_REQ. -/
def connectionRequestBytes : List Nat :=
  [10, 0xE0, 0, 0, 0, 0, 0, 1, 0, 8, 0]

/-- C9: decoding a Connection Message from a buffer that ends immediately
after the five padding bytes succeeds and reports the optional negotiation
record as absent, rather than failing with a decode error. -/
theorem connectMessage_read_absent_negotiation
    (len code p1a p1b p2a p2b p3 : Nat) :
    TPDUConnectMessage.read [len, code, p1a, p1b, p2a, p2b, p3] =
      some (⟨len, code, 256 * p1a + p1b, 256 * p2a + p2b, p3,
             Negotiation.init, false⟩, []) := rfl

/-- C7: in the data-exchange state, send hands the transport exactly the
three bytes 2, 0xF0, 0x80 followed by the unmodified payload, as one unit. -/
theorem tpdu_send_prepends_data_header (t : TPDU) (payload : List Nat)
    (_hstate : t.state = TpduState.dataExchange) :
    t.send payload = [Effect.sendBytes ([2, 0xF0, 0x80] ++ payload)] := rfl

/-- Witness for C7 at a concrete machine in the data-exchange state and a
concrete payload. -/
theorem tpdu_send_prepends_data_header_witness :
    TPDU.send ⟨1, 1, TpduState.dataExchange⟩ [9, 8, 7] =
      [Effect.sendBytes ([2, 0xF0, 0x80] ++ [9, 8, 7])] :=
  tpdu_send_prepends_data_header ⟨1, 1, TpduState.dataExchange⟩ [9, 8, 7] rfl

/-- C3: whenever recvData decodes a Data Header from the received buffer, a
message type of X224_TPDU_DATA forwards the remaining bytes unchanged to the
upper layer, X224_TPDU_ERROR raises the fatal peer-reported error, and any
other message type byte raises the unrecognized-frame error. -/
theorem recvData_cases (t : TPDU) (data rest : List Nat) (messageType : Nat)
    (hread : TPDUDataHeader.read data = some (messageType, rest)) :
    (messageType = MessageType.X224_TPDU_DATA →
      t.recvData data = (t, Except.ok [Effect.dataUpper rest])) ∧
    (messageType = MessageType.X224_TPDU_ERROR →
      t.recvData data = (t, Except.error TpduError.peerError)) ∧
    (messageType ≠ MessageType.X224_TPDU_DATA →
      messageType ≠ MessageType.X224_TPDU_ERROR →
      t.recvData data =
        (t, Except.error (TpduError.unknownTpduCode messageType))) := by
  refine ⟨fun h => ?_, fun h => ?_, fun h1 h2 => ?_⟩
  · simp [TPDU.recvData, hread, h, MessageType.X224_TPDU_DATA,
      MessageType.X224_TPDU_ERROR]
  · simp [TPDU.recvData, hread, h, MessageType.X224_TPDU_DATA,
      MessageType.X224_TPDU_ERROR]
  · simp only [MessageType.X224_TPDU_DATA, MessageType.X224_TPDU_ERROR]
      at h1 h2
    simp [TPDU.recvData, hread, MessageType.X224_TPDU_DATA,
      MessageType.X224_TPDU_ERROR, h1, h2]

/-- Witness for C3: the three branches exercised on concrete buffers sharing
the valid three-byte header frame. -/
theorem recvData_cases_witness :
    TPDU.init.recvData [2, 0xF0, 0x80, 9] =
      (TPDU.init, Except.ok [Effect.dataUpper [9]]) ∧
    TPDU.init.recvData [2, 0x70, 0x80, 9] =
      (TPDU.init, Except.error TpduError.peerError) ∧
    TPDU.init.recvData [2, 0x55, 0x80, 9] =
      (TPDU.init, Except.error (TpduError.unknownTpduCode 0x55)) :=
  ⟨(recvData_cases TPDU.init [2, 0xF0, 0x80, 9] [9] 0xF0 rfl).1 rfl,
   (recvData_cases TPDU.init [2, 0x70, 0x80, 9] [9] 0x70 rfl).2.1 rfl,
   (recvData_cases TPDU.init [2, 0x55, 0x80, 9] [9] 0x55 rfl).2.2
     (by decide) (by decide)⟩

/-- C1: a received Connection Confirm whose negotiation record is present,
carries no failure code and selects PROTOCOL_SSL makes recvConnectionConfirm
upgrade the transport to TLS exactly once, transition the automata to the
data-exchange state and notify the upper layer that the connection is
established. -/
theorem recvConnectionConfirm_tls_success (t : TPDU) (data rest : List Nat)
    (message : TPDUConnectMessage)
    (hread : TPDUConnectMessage.read data = some (message, rest))
    (hcode : message.code = MessageType.X224_TPDU_CONNECTION_CONFIRM)
    (hneg : message.protocolNegRead = true)
    (hfail : message.protocolNeg.failureCodeRead = false)
    (hsel : message.protocolNeg.selectedProtocol = Protocols.PROTOCOL_SSL) :
    t.recvConnectionConfirm data =
      (⟨t.requestedProtocol, Protocols.PROTOCOL_SSL, TpduState.dataExchange⟩,
       Except.ok [Effect.startTLS, Effect.connectedUpper]) ∧
    List.count Effect.startTLS [Effect.startTLS, Effect.connectedUpper] = 1 ∧
    Effect.connectedUpper ∈ [Effect.startTLS, Effect.connectedUpper] := by
  refine ⟨?_, by decide, by decide⟩
  simp [TPDU.recvConnectionConfirm, hread, hcode, hneg, hfail, hsel,
    Protocols.PROTOCOL_SSL]

/-- Witness for C1 on the concrete confirm bytes selecting PROTOCOL_SSL. -/
theorem recvConnectionConfirm_tls_success_witness :
    TPDU.init.recvConnectionConfirm confirmOkBytes =
      (⟨TPDU.init.requestedProtocol, Protocols.PROTOCOL_SSL,
        TpduState.dataExchange⟩,
       Except.ok [Effect.startTLS, Effect.connectedUpper]) ∧
    List.count Effect.startTLS [Effect.startTLS, Effect.connectedUpper] = 1 ∧
    Effect.connectedUpper ∈ [Effect.startTLS, Effect.connectedUpper] :=
  recvConnectionConfirm_tls_success TPDU.init confirmOkBytes []
    ⟨14, 0xD0, 0, 0, 0, ⟨2, 0, 8, 1, 0, true, false⟩, true⟩
    rfl rfl rfl rfl rfl

/-- C4: a received Connection Confirm whose negotiation record is present
with the failure code field present makes recvConnectionConfirm raise the
negotiation-failure error carrying the failure code reported by the peer,
and the automata never reaches the data-exchange state. -/
theorem recvConnectionConfirm_negotiation_failure (t : TPDU)
    (data rest : List Nat) (message : TPDUConnectMessage)
    (hread : TPDUConnectMessage.read data = some (message, rest))
    (hcode : message.code = MessageType.X224_TPDU_CONNECTION_CONFIRM)
    (hneg : message.protocolNegRead = true)
    (hfail : message.protocolNeg.failureCodeRead = true)
    (hstate : t.state = TpduState.awaitingConnectionConfirm) :
    t.recvConnectionConfirm data =
      (t, Except.error
        (TpduError.negotiationFailure message.protocolNeg.failureCode)) ∧
    (t.recvConnectionConfirm data).1.state ≠ TpduState.dataExchange := by
  have h1 : t.recvConnectionConfirm data =
      (t, Except.error
        (TpduError.negotiationFailure message.protocolNeg.failureCode)) := by
    simp [TPDU.recvConnectionConfirm, hread, hcode, hneg, hfail]
  refine ⟨h1, ?_⟩
  rw [h1]
  simp [hstate]

/-- Witness for C4 on the concrete confirm bytes carrying failure code 2. -/
theorem recvConnectionConfirm_negotiation_failure_witness :
    TPDU.recvConnectionConfirm ⟨1, 1, TpduState.awaitingConnectionConfirm⟩
      confirmFailureBytes =
      (⟨1, 1, TpduState.awaitingConnectionConfirm⟩,
       Except.error (TpduError.negotiationFailure 2)) ∧
    (TPDU.recvConnectionConfirm ⟨1, 1, TpduState.awaitingConnectionConfirm⟩
      confirmFailureBytes).1.state ≠ TpduState.dataExchange :=
  recvConnectionConfirm_negotiation_failure
    ⟨1, 1, TpduState.awaitingConnectionConfirm⟩ confirmFailureBytes []
    ⟨14, 0xD0, 0, 0, 0, ⟨3, 0, 8, 0, 2, false, true⟩, true⟩
    rfl rfl rfl rfl rfl

/-- C5: a received Connection Message whose code is the confirm code but
whose optional negotiation record was absent makes recvConnectionConfirm
raise the unexpected-message error; the result carries no effects, so no TLS
upgrade is triggered. -/
theorem recvConnectionConfirm_missing_negotiation (t : TPDU)
    (data rest : List Nat) (message : TPDUConnectMessage)
    (hread : TPDUConnectMessage.read data = some (message, rest))
    (hcode : message.code = MessageType.X224_TPDU_CONNECTION_CONFIRM)
    (hneg : message.protocolNegRead = false) :
    t.recvConnectionConfirm data =
      (t, Except.error TpduError.negotiationAbsent) := by
  simp [TPDU.recvConnectionConfirm, hread, hcode, hneg]

/-- Witness for C5 on the concrete confirm bytes truncated right after the
padding. -/
theorem recvConnectionConfirm_missing_negotiation_witness :
    TPDU.init.recvConnectionConfirm confirmNoNegBytes =
      (TPDU.init, Except.error TpduError.negotiationAbsent) :=
  recvConnectionConfirm_missing_negotiation TPDU.init confirmNoNegBytes []
    ⟨6, 0xD0, 0, 0, 0, Negotiation.init, false⟩ rfl rfl rfl

/-- C6: a received Connection Confirm whose negotiation response selects a
protocol other than PROTOCOL_SSL makes recvConnectionConfirm adopt that
protocol into the session state and then raise the unsupported-protocol
error; the result carries no effects, so no TLS upgrade and no fallback
renegotiation happen. -/
theorem recvConnectionConfirm_unsupported_protocol (t : TPDU)
    (data rest : List Nat) (message : TPDUConnectMessage)
    (hread : TPDUConnectMessage.read data = some (message, rest))
    (hcode : message.code = MessageType.X224_TPDU_CONNECTION_CONFIRM)
    (hneg : message.protocolNegRead = true)
    (hfail : message.protocolNeg.failureCodeRead = false)
    (hsel : message.protocolNeg.selectedProtocol ≠ Protocols.PROTOCOL_SSL) :
    t.recvConnectionConfirm data =
      (⟨t.requestedProtocol, message.protocolNeg.selectedProtocol, t.state⟩,
       Except.error TpduError.unsupportedProtocol) := by
  simp [TPDU.recvConnectionConfirm, hread, hcode, hneg, hfail, hsel]

/-- Witness for C6 on the concrete confirm bytes selecting
PROTOCOL_HYBRID. -/
theorem recvConnectionConfirm_unsupported_protocol_witness :
    TPDU.init.recvConnectionConfirm confirmHybridBytes =
      (⟨TPDU.init.requestedProtocol, 2, TPDU.init.state⟩,
       Except.error TpduError.unsupportedProtocol) :=
  recvConnectionConfirm_unsupported_protocol TPDU.init confirmHybridBytes []
    ⟨14, 0xD0, 0, 0, 0, ⟨2, 0, 8, 2, 0, true, false⟩, true⟩
    rfl rfl rfl rfl (by decide)

/-- C10: on the unsupported-protocol error path the session state returned by
recvConnectionConfirm already carries the selected protocol of the peer,
overwritten before the raise and not restored afterwards, so it differs from
the value held before the call whenever the peer value differs. -/
theorem recvConnectionConfirm_mutation_survives_error (t : TPDU)
    (data rest : List Nat) (message : TPDUConnectMessage)
    (hread : TPDUConnectMessage.read data = some (message, rest))
    (hcode : message.code = MessageType.X224_TPDU_CONNECTION_CONFIRM)
    (hneg : message.protocolNegRead = true)
    (hfail : message.protocolNeg.failureCodeRead = false)
    (hsel : message.protocolNeg.selectedProtocol ≠ Protocols.PROTOCOL_SSL)
    (hprior : t.selectedProtocol ≠ message.protocolNeg.selectedProtocol) :
    (t.recvConnectionConfirm data).1.selectedProtocol =
      message.protocolNeg.selectedProtocol ∧
    (t.recvConnectionConfirm data).1.selectedProtocol ≠
      t.selectedProtocol ∧
    (t.recvConnectionConfirm data).2 =
      Except.error TpduError.unsupportedProtocol := by
  have h1 : t.recvConnectionConfirm data =
      (⟨t.requestedProtocol, message.protocolNeg.selectedProtocol, t.state⟩,
       Except.error TpduError.unsupportedProtocol) := by
    simp [TPDU.recvConnectionConfirm, hread, hcode, hneg, hfail, hsel]
  rw [h1]
  exact ⟨rfl, fun h => hprior h.symm, rfl⟩

/-- Witness for C10: the initial machine holds PROTOCOL_SSL, the peer
selects PROTOCOL_HYBRID, and the machine returned along the error path holds
the peer value. -/
theorem recvConnectionConfirm_mutation_survives_error_witness :
    (TPDU.init.recvConnectionConfirm confirmHybridBytes).1.selectedProtocol
      = 2 ∧
    (TPDU.init.recvConnectionConfirm
      confirmHybridBytes).1.selectedProtocol ≠ TPDU.init.selectedProtocol ∧
    (TPDU.init.recvConnectionConfirm confirmHybridBytes).2 =
      Except.error TpduError.unsupportedProtocol :=
  recvConnectionConfirm_mutation_survives_error TPDU.init confirmHybridBytes
    [] ⟨14, 0xD0, 0, 0, 0, ⟨2, 0, 8, 2, 0, true, false⟩, true⟩
    rfl rfl rfl rfl (by decide) (by decide)

/-- Counterexample for C2: connect on the initial machine sends exactly the
eleven bytes of connectionRequestBytes, and decoding those bytes shows the
negotiation record on the wire is code 1, flag 0 and the constant length 8
only: its selectedProtocol field was not present (was-read flag false, value
left at the default 0, not the requested protocol 1), because the codec
writes selectedProtocol only when the code equals the response discriminant
2, never for the request discriminant 1. -/
theorem tpdu_connect_counterexample :
    (TPDU.init.connect).2 = [Effect.sendBytes connectionRequestBytes] ∧
    TPDUConnectMessage.read connectionRequestBytes =
      some (⟨10, 0xE0, 0, 0, 0, ⟨1, 0, 8, 0, 0, false, false⟩, true⟩, []) ∧
    (0 : Nat) ≠ TPDU.init.requestedProtocol := by
  refine ⟨rfl, rfl, by decide⟩

/-- C2 as amended: connect builds a Connection Message with code
X224_TPDU_CONNECTION_REQUEST embedding a Negotiation record with code
TYPE_RDP_NEG_REQ whose selectedProtocol field is set to the requested
protocol on the record but omitted from the encoded bytes, since the
conditional predicate of that field holds only for the response code; the
bytes sent are therefore the fixed eleven bytes of connectionRequestBytes,
and the receive handler for the confirm state is armed. -/
theorem tpdu_connect_amended (t : TPDU) :
    t.connect =
      (⟨t.requestedProtocol, t.selectedProtocol,
        TpduState.awaitingConnectionConfirm⟩,
       [Effect.sendBytes connectionRequestBytes]) := by
  simp [TPDU.connect, TPDU.sendConnectionRequest, TPDUConnectMessage.write,
    Negotiation.write, writeUInt8, writeUInt16Be, writeUInt16Le,
    connectionRequestBytes, MessageType.X224_TPDU_CONNECTION_REQUEST,
    NegociationType.TYPE_RDP_NEG_REQ, NegociationType.TYPE_RDP_NEG_RSP,
    NegociationType.TYPE_RDP_NEG_FAILURE]

/-- The 32-bit little-endian codec of the modelled engine round-trips every
value below 2 to the 32. -/
theorem readUInt32Le_writeUInt32Le (v : Nat) (hv : v < 4294967296)
    (rest : List Nat) :
    readUInt32Le (writeUInt32Le v ++ rest) = some (v, rest) := by
  simp [readUInt32Le, writeUInt32Le]
  omega

/-- C8: for each negotiation code among request, response and failure,
encoding a Negotiation record and decoding the produced bytes consumes them
entirely and yields identical values for code, flag and length, with exactly
the conditional field whose predicate holds for that code present after
decode (selectedProtocol for the response code, failureCode for the failure
code, neither for the request code), carrying its original value. -/
theorem negotiation_roundtrip (code flag sel fc : Nat)
    (hcode : code = NegociationType.TYPE_RDP_NEG_REQ ∨
      code = NegociationType.TYPE_RDP_NEG_RSP ∨
      code = NegociationType.TYPE_RDP_NEG_FAILURE)
    (hflag : flag < 256) (hsel : sel < 4294967296) (hfc : fc < 4294967296) :
    ∃ n : Negotiation,
      Negotiation.read
        (Negotiation.write ⟨code, flag, 8, sel, fc, false, false⟩) =
        some (n, []) ∧
      n.code = code ∧ n.flag = flag ∧ n.len = 8 ∧
      (n.selectedProtocolRead = true ↔
        code = NegociationType.TYPE_RDP_NEG_RSP) ∧
      (n.failureCodeRead = true ↔
        code = NegociationType.TYPE_RDP_NEG_FAILURE) ∧
      (code = NegociationType.TYPE_RDP_NEG_RSP → n.selectedProtocol = sel) ∧
      (code = NegociationType.TYPE_RDP_NEG_FAILURE → n.failureCode = fc) := by
  rcases hcode with h | h | h <;> subst h
  · refine ⟨⟨1, flag, 8, 0, 0, false, false⟩, ?_, rfl, rfl, rfl,
      by simp [NegociationType.TYPE_RDP_NEG_REQ,
        NegociationType.TYPE_RDP_NEG_RSP],
      by simp [NegociationType.TYPE_RDP_NEG_REQ,
        NegociationType.TYPE_RDP_NEG_FAILURE],
      by simp [NegociationType.TYPE_RDP_NEG_REQ,
        NegociationType.TYPE_RDP_NEG_RSP],
      by simp [NegociationType.TYPE_RDP_NEG_REQ,
        NegociationType.TYPE_RDP_NEG_FAILURE]⟩
    simp [Negotiation.write, Negotiation.read, writeUInt8, writeUInt16Le,
      readUInt8, readUInt16Le, NegociationType.TYPE_RDP_NEG_REQ,
      NegociationType.TYPE_RDP_NEG_RSP, NegociationType.TYPE_RDP_NEG_FAILURE,
      Nat.mod_eq_of_lt hflag]
  · refine ⟨⟨2, flag, 8, sel, 0, true, false⟩, ?_, rfl, rfl, rfl,
      by simp, by simp [NegociationType.TYPE_RDP_NEG_RSP,
        NegociationType.TYPE_RDP_NEG_FAILURE],
      fun _ => rfl,
      by simp [NegociationType.TYPE_RDP_NEG_RSP,
        NegociationType.TYPE_RDP_NEG_FAILURE]⟩
    simp [Negotiation.write, Negotiation.read, writeUInt8, writeUInt16Le,
      writeUInt32Le, readUInt8, readUInt16Le, readUInt32Le,
      NegociationType.TYPE_RDP_NEG_REQ, NegociationType.TYPE_RDP_NEG_RSP,
      NegociationType.TYPE_RDP_NEG_FAILURE]
    omega
  · refine ⟨⟨3, flag, 8, 0, fc, false, true⟩, ?_, rfl, rfl, rfl,
      by simp [NegociationType.TYPE_RDP_NEG_RSP,
        NegociationType.TYPE_RDP_NEG_FAILURE],
      by simp,
      by simp [NegociationType.TYPE_RDP_NEG_RSP,
        NegociationType.TYPE_RDP_NEG_FAILURE],
      fun _ => rfl⟩
    simp [Negotiation.write, Negotiation.read, writeUInt8, writeUInt16Le,
      writeUInt32Le, readUInt8, readUInt16Le, readUInt32Le,
      NegociationType.TYPE_RDP_NEG_REQ, NegociationType.TYPE_RDP_NEG_RSP,
      NegociationType.TYPE_RDP_NEG_FAILURE]
    omega

/-- Witness for C8 at the response code with flag 5 and selected
protocol 1. -/
theorem negotiation_roundtrip_witness :
    ∃ n : Negotiation,
      Negotiation.read
        (Negotiation.write ⟨2, 5, 8, 1, 0, false, false⟩) =
        some (n, []) ∧
      n.code = 2 ∧ n.flag = 5 ∧ n.len = 8 ∧
      (n.selectedProtocolRead = true ↔
        (2 : Nat) = NegociationType.TYPE_RDP_NEG_RSP) ∧
      (n.failureCodeRead = true ↔
        (2 : Nat) = NegociationType.TYPE_RDP_NEG_FAILURE) ∧
      ((2 : Nat) = NegociationType.TYPE_RDP_NEG_RSP →
        n.selectedProtocol = 1) ∧
      ((2 : Nat) = NegociationType.TYPE_RDP_NEG_FAILURE →
        n.failureCode = 0) :=
  negotiation_roundtrip 2 5 1 0 (Or.inr (Or.inl rfl)) (by decide)
    (by decide) (by decide)
